import Mathlib

/-!
A verification development for `src/app.py` (Excel client renewal checker).

The Python program ingests a client spreadsheet, heuristically classifies
date/email columns, computes ages from birth dates, filters clients above an
age threshold and renewals inside two calendar-month windows, and rebuilds an
output workbook with one live-formula report sheet and one static report
sheet.  The definitions below are a shallow embedding of that code: pure
Python functions become Lean functions, the pandas/openpyxl libraries are
modelled by explicit data (parse outcomes are carried on cells, a workbook is
an association list of named sheets), and a Python exception that escapes a
function is modelled by `Except.error`.
-/

namespace ExcelAutomation

/-- A calendar date, as carried by a `datetime`/`pd.Timestamp` value. -/
structure Date where
  year : Nat
  month : Nat
  day : Nat
deriving DecidableEq, Repr

/-- Chronological strict order on dates (comparison of `datetime` values). -/
def dateLt (a b : Date) : Bool :=
  decide (a.year < b.year ∨ (a.year = b.year ∧
    (a.month < b.month ∨ (a.month = b.month ∧ a.day < b.day))))

/-- Chronological order on dates, inclusive. -/
def dateLe (a b : Date) : Bool :=
  decide (a.year < b.year ∨ (a.year = b.year ∧
    (a.month < b.month ∨ (a.month = b.month ∧ a.day ≤ b.day))))

/-- The Python tuple comparison `(t.month, t.day) < (b.month, b.day)`
used in the age formula (app.py lines 103 and 243). -/
def monthDayLt (t b : Date) : Bool :=
  decide (t.month < b.month ∨ (t.month = b.month ∧ t.day < b.day))

/-- `age = today.year - birth_date.year - ((today.month, today.day) <
(birth_date.month, birth_date.day))` (app.py lines 103 and 243). -/
def ageAt (birth today : Date) : Int :=
  (today.year : Int) - (birth.year : Int) - (if monthDayLt today birth then 1 else 0)

/-- The epoch sentinel `1970-01-01` treated as missing data (app.py line 99). -/
def epoch1970 : Date := ⟨1970, 1, 1⟩

/-- A Python cell value as received by `calculate_age`:
`na` is a NaN/NaT/None value (so `pd.isna` is true), `str` is a string
together with the result of `pd.to_datetime` on it (`none` when that parse
raises), `date` is a `datetime`/`Timestamp`, `num` a plain number and
`other` any further type. -/
inductive PyVal where
  | na : PyVal
  | str : Option Date → PyVal
  | date : Date → PyVal
  | num : Int → PyVal
  | other : PyVal
deriving DecidableEq

/-- The body of `calculate_age` once `birth_date` is a date value
(app.py lines 96-109): the 1970-01-01 sentinel yields `None`, then the age is
computed and a result outside `[0, 120]` yields `None`. -/
def calculate_age_core (d today : Date) : Option Int :=
  if d.year = 1970 ∧ d.month = 1 ∧ d.day = 1 then
    none
  else if ageAt d today < 0 ∨ ageAt d today > 120 then none
  else some (ageAt d today)

/-- `calculate_age` (app.py lines 84-109).  `Except.error ()` models an
exception escaping the function: a non-NaN number (or any other dateless,
non-string value) reaches `birth_date.year` and raises `AttributeError`,
which the function does not catch.  A string whose `pd.to_datetime` parse
raises is caught and yields `None`. -/
def calculate_age (birth_date : PyVal) (today : Date) : Except Unit (Option Int) :=
  match birth_date with
  | PyVal.na => Except.ok none
  | PyVal.str parsed =>
    match parsed with
    | none => Except.ok none
    | some d => Except.ok (calculate_age_core d today)
  | PyVal.date d => Except.ok (calculate_age_core d today)
  | PyVal.num _ => Except.error ()
  | PyVal.other => Except.error ()

/-- `calculate_age_safe` (app.py lines 238-246), the static-report variant:
`None` on NaT, otherwise the same age arithmetic kept only when
`0 <= age <= 120`.  It performs no 1970-01-01 sentinel check. -/
def calculate_age_safe (birth_date : Option Date) (today : Date) : Option Int :=
  match birth_date with
  | none => none
  | some d =>
    if 0 ≤ ageAt d today ∧ ageAt d today ≤ 120 then some (ageAt d today) else none

/-- The parsed date carried by a `PyVal`, i.e. the `birth_date` value the
body of `calculate_age` works on after string coercion. -/
def normBirth (v : PyVal) : Option Date :=
  match v with
  | PyVal.str parsed => parsed
  | PyVal.date d => some d
  | _ => none

/-- A source birthday cell as the spreadsheet engine and `pd.to_datetime`
see it: blank, a value no date parser accepts, or a date. -/
inductive Cell where
  | blank : Cell
  | malformed : Cell
  | date : Date → Cell
deriving DecidableEq

/-- `pd.to_datetime(value, errors="coerce")` on one cell (app.py line 543):
blank and malformed cells coerce to NaT. -/
def to_datetime_coerce (c : Cell) : Option Date :=
  match c with
  | Cell.date d => some d
  | _ => none

/-- The coerced column value handed to `calculate_age` by the Task 1
preview (app.py lines 543-544): NaT for blank/malformed, a Timestamp else. -/
def cellToPy (c : Cell) : PyVal :=
  match to_datetime_coerce c with
  | none => PyVal.na
  | some d => PyVal.date d

/-- Excel serial number 0, the date a blank DATEDIF argument coerces to. -/
def excelSerialZero : Date := ⟨1899, 12, 30⟩

/-- `ISBLANK(ref)` on the referenced source cell. -/
def excelISBLANK (c : Cell) : Bool :=
  match c with
  | Cell.blank => true
  | _ => false

/-- `DATEDIF(ref, TODAY(), "Y")`: errors on a value that is not a date and
on a start date after today (`#NUM!`); otherwise the number of complete
years, which for the dates at issue is the same complete-year count the
Python code computes.  A blank argument coerces to serial 0. -/
def excelDATEDIF_Y (c : Cell) (today : Date) : Except Unit Int :=
  match c with
  | Cell.blank =>
    if dateLt today excelSerialZero then Except.error () else Except.ok (ageAt excelSerialZero today)
  | Cell.malformed => Except.error ()
  | Cell.date d =>
    if dateLt today d then Except.error () else Except.ok (ageAt d today)

/-- `ISERROR(expr)`. -/
def excelISERROR (r : Except Unit Int) : Bool :=
  match r with
  | Except.error _ => true
  | Except.ok _ => false

/-- The DATEDIF sub-expression text shared by both synthesized formulas
(app.py lines 170 and 173). -/
def datedif_expr (ref : String) : String :=
  "DATEDIF(" ++ ref ++ ",TODAY(),\"Y\")"

/-- The synthesized row condition string (app.py line 173). -/
def condition_formula (ref : String) : String :=
  "IF(ISBLANK(" ++ ref ++ "),FALSE,IF(ISERROR(" ++ datedif_expr ref ++ "),FALSE,"
    ++ datedif_expr ref ++ ">25))"

/-- The synthesized age display string (app.py line 170). -/
def age_formula (ref : String) : String :=
  "IF(ISBLANK(" ++ ref ++ "),\"\",IF(ISERROR(" ++ datedif_expr ref ++ "),\"\","
    ++ datedif_expr ref ++ "))"

/-- Spreadsheet evaluation of the synthesized condition (app.py line 173),
mirroring its guard structure: blank is FALSE, a DATEDIF error is FALSE,
otherwise `DATEDIF(ref, TODAY(), "Y") > 25`. -/
def formulaCond (c : Cell) (today : Date) : Bool :=
  if excelISBLANK c then false
  else if excelISERROR (excelDATEDIF_Y c today) then false
  else
    match excelDATEDIF_Y c today with
    | Except.ok n => decide (n > 25)
    | Except.error _ => false

/-- A normalized record: its original position and its derived `Age` field. -/
structure Record where
  idx : Nat
  age : Option Int
deriving DecidableEq, Repr

/-- The pandas boolean mask `df["Age"] > t` on one value: a NaN/None age
compares false (app.py lines 252 and 545). -/
def age_keep (age : Option Int) (t : Int) : Bool :=
  match age with
  | some a => decide (a > t)
  | none => false

/-- The filter `df[df["Age"] > t]` over the record sequence
(app.py lines 252 and 545), preserving row order. -/
def above_age (records : List Record) (t : Int) : List Record :=
  records.filter (fun r => age_keep r.age t)

/-- The derived age of one row in the Task 1 preview (app.py lines 543-544):
coerce the birthday cell, then `calculate_age`.  On coerced input the
function never raises, so the `Except` layer is collapsed. -/
def preview_age (c : Cell) (today : Date) : Option Int :=
  match calculate_age (cellToPy c) today with
  | Except.ok a => a
  | Except.error _ => none

/-- Whether the procedural Task 1 filter keeps the row (app.py line 545). -/
def task1_preview_keeps (c : Cell) (today : Date) : Bool :=
  age_keep (preview_age c today) 25

/-- A row whose parsed birthday the procedural path discards for a reason
the synthesized formula does not check: the 1970-01-01 sentinel and the
over-120 sanity bound. -/
def sentinel_or_overage (c : Cell) (today : Date) : Bool :=
  match c with
  | Cell.date d => decide (d = epoch1970 ∨ ageAt d today > 120)
  | _ => false

/-! ### Column classifier (`find_date_columns`, app.py lines 17-39)

Column names are modelled as character lists so that the lowercasing and
substring tests of the Python code stay kernel-computable. -/

/-- `str(col).lower()`. -/
def lowerChars (s : List Char) : List Char := s.map Char.toLower

/-- Whether `sub` is an initial segment of `s`. -/
def isPrefixChars : List Char → List Char → Bool
  | [], _ => true
  | _ :: _, [] => false
  | a :: as, b :: bs => a == b && isPrefixChars as bs

/-- The Python substring test `sub in s`. -/
def isInfixChars (sub : List Char) (s : List Char) : Bool :=
  match s with
  | [] => sub.isEmpty
  | _ :: rest => isPrefixChars sub s || isInfixChars sub rest

/-- The date-name keyword set of app.py line 23. -/
def dateKeywords : List (List Char) :=
  [['b','i','r','t','h','d','a','y'], ['d','o','b'], ['b','i','r','t','h'],
   ['d','a','t','e'], ['r','e','n','e','w','a','l'], ['p','r','e','m','i','u','m']]

/-- The birth-name keyword set of app.py lines 29 and 36. -/
def birthKeywords : List (List Char) :=
  [['b','i','r','t','h','d','a','y'], ['d','o','b'], ['b','i','r','t','h']]

/-- `any(keyword in col_lower for keyword in kws)`. -/
def hasAnyKeyword (colLower : List Char) (kws : List (List Char)) : Bool :=
  kws.any (fun k => isInfixChars k colLower)

/-- One sampled cell of a column: the outcome of `pd.to_datetime` on that
value under `dayfirst=True` and under the default, abstracting the external
parser (a parse that raises is `false`). -/
structure ParsedCell where
  ok_dayfirst : Bool
  ok_default : Bool
deriving DecidableEq, Repr

/-- A source column: its name and its cells, `none` being a blank (NaN)
cell that `dropna` removes. -/
structure Column where
  name : List Char
  cells : List (Option ParsedCell)
deriving DecidableEq

/-- `df[col].dropna().head(10)` (app.py line 26). -/
def sample10 (c : Column) : List ParsedCell :=
  (c.cells.filterMap id).take 10

/-- Whether the lowercased name contains `birthday`, `birth` or `dob`
(app.py lines 29 and 36). -/
def isBirthNamed (colLower : List Char) : Bool :=
  hasAnyKeyword colLower birthKeywords

/-- `pd.to_datetime(sample_data, errors="raise", dayfirst=...)` succeeding,
i.e. the batch parse not raising: every sampled value parses, with
`dayfirst=True` exactly for birth-named columns (app.py lines 30-32). -/
def batch_parse_ok (birthNamed : Bool) (sample : List ParsedCell) : Bool :=
  sample.all (fun p => if birthNamed then p.ok_dayfirst else p.ok_default)

/-- The per-column decision of `find_date_columns` (app.py lines 20-38):
a date keyword in the lowercased name is required; then, when the non-blank
sample is non-empty, the column is kept if the batch parse succeeds, and a
failing batch parse keeps it anyway exactly for birth-named columns; an
empty sample never appends. -/
def date_col_accepted (c : Column) : Bool :=
  let colLower := lowerChars c.name
  if hasAnyKeyword colLower dateKeywords then
    let sample := sample10 c
    if sample.length > 0 then
      if batch_parse_ok (isBirthNamed colLower) sample then true
      else isBirthNamed colLower
    else false
  else false

/-- `find_date_columns(df)` (app.py lines 17-39): the names of the accepted
columns, in column order. -/
def find_date_columns : List Column → List (List Char)
  | [] => []
  | c :: rest =>
    if date_col_accepted c then c.name :: find_date_columns rest
    else find_date_columns rest

/-! ### Renewal windows (`create_task2_worksheet`, app.py lines 306-321) -/

/-- A source row for Task 2: its position and its renewal date after
`pd.to_datetime(..., errors="coerce")` (app.py line 317), `none` being NaT. -/
structure RenRow where
  idx : Nat
  renewal : Option Date
deriving DecidableEq, Repr

/-- The July mask `(dt.year == 2025) & (dt.month == 7)` on one value
(app.py line 320); NaT compares false. -/
def in_july_2025 (renewal : Option Date) : Bool :=
  match renewal with
  | some d => decide (d.year = 2025 ∧ d.month = 7)
  | none => false

/-- The August mask `(dt.year == 2025) & (dt.month == 8)` on one value
(app.py line 321); NaT compares false. -/
def in_august_2025 (renewal : Option Date) : Bool :=
  match renewal with
  | some d => decide (d.year = 2025 ∧ d.month = 8)
  | none => false

/-- The two row buckets `july_2025` and `august_2025`
(app.py lines 320-321), each preserving row order. -/
def create_task2_buckets (rows : List RenRow) : List RenRow × List RenRow :=
  (rows.filter (fun r => in_july_2025 r.renewal),
   rows.filter (fun r => in_august_2025 r.renewal))

/-- Gregorian leap year. -/
def isLeapYear (y : Nat) : Bool :=
  y % 4 = 0 && (y % 100 != 0 || y % 400 = 0)

/-- Days in a calendar month. -/
def daysInMonth (y m : Nat) : Nat :=
  if m = 2 then (if isLeapYear y then 29 else 28)
  else if m = 4 ∨ m = 6 ∨ m = 9 ∨ m = 11 then 30
  else 31

/-- A well-formed calendar date, as any value `pd.to_datetime` can return. -/
def ValidDate (d : Date) : Prop :=
  1 ≤ d.month ∧ d.month ≤ 12 ∧ 1 ≤ d.day ∧ d.day ≤ daysInMonth d.year d.month

/-! ### Email extraction (app.py lines 584-593) -/

/-- `bucket[email_col].dropna().tolist()` (app.py lines 584-585): the
non-blank emails of a bucket, in row order. -/
def extract_emails (emailCol : List (Option String)) : List String :=
  emailCol.filterMap id

/-- The emails of the two renewal windows taken together, July rows first
(the program exposes `july_emails` and `august_emails` back to back,
app.py lines 584-593). -/
def combined_emails (julyCol augustCol : List (Option String)) : List String :=
  extract_emails julyCol ++ extract_emails augustCol

/-! ### Temporary-file lifecycle
(`create_enhanced_excel_with_both_tasks`, app.py lines 402-429) -/

/-- The successive operations of `create_enhanced_excel_with_both_tasks`
that can raise.  `read_excel` runs before the temporary file is created
(line 406); `mktemp` is the `NamedTemporaryFile(delete=False)` acquisition
(line 409); the remaining steps run with the file on disk, and `os.unlink`
(line 427) is only reached after all of them. -/
inductive Step where
  | read_excel : Step
  | mktemp : Step
  | to_excel : Step
  | load_workbook : Step
  | task1 : Step
  | task2 : Step
  | save_wb : Step
deriving DecidableEq, Repr

/-- The observable outcome of one run: whether an exception escaped, and
whether the temporary file was created resp. removed. -/
structure RunResult where
  raised : Bool
  tmp_created : Bool
  tmp_deleted : Bool
deriving DecidableEq, Repr

/-- The control flow of `create_enhanced_excel_with_both_tasks`
(app.py lines 402-429) over an arbitrary fault assignment: each step either
runs or raises; because the file is opened with `delete=False` and
`os.unlink` is the last statement of the block, any step that raises after
the acquisition leaves the file on disk. -/
def create_enhanced_excel_with_both_tasks (fails : Step → Bool) : RunResult :=
  if fails Step.read_excel then ⟨true, false, false⟩
  else if fails Step.mktemp then ⟨true, false, false⟩
  else if fails Step.to_excel then ⟨true, true, false⟩
  else if fails Step.load_workbook then ⟨true, true, false⟩
  else if fails Step.task1 then ⟨true, true, false⟩
  else if fails Step.task2 then ⟨true, true, false⟩
  else if fails Step.save_wb then ⟨true, true, false⟩
  else ⟨false, true, true⟩

/-! ### Report-sheet lifecycle (app.py lines 120-131, 225-233, 306-314)

A workbook is an association list of named sheets; openpyxl keeps sheet
names unique.  The rows written into a report sheet (headers, formulas or
static values, app.py lines 134-212, 236-302, 316-398) are a function of the
data they are computed from; that function is a parameter `build` (resp. an
already computed grid `content`), since the lifecycle claims hold for every
such content. -/

/-- The cell grid of one sheet. -/
abbrev Grid := List (List String)

/-- A workbook: sheets in order, each with a name. -/
abbrev Sheets := List (String × Grid)

/-- `wb.remove(wb[name])` guarded by `name in wb.sheetnames`
(app.py lines 124-125). -/
def removeSheet (wb : Sheets) (name : String) : Sheets :=
  wb.filter (fun s => !(s.1 == name))

/-- `wb.create_sheet(name)` (app.py line 128): a fresh empty sheet appended
at the end. -/
def createSheet (wb : Sheets) (name : String) : Sheets :=
  wb ++ [(name, ([] : Grid))]

/-- Writing the sheet named `name` (the cell writes of the report loops). -/
def setSheetContent (wb : Sheets) (name : String) (g : Grid) : Sheets :=
  wb.map (fun s => if s.1 == name then (s.1, g) else s)

/-- The Task 1 target sheet name (app.py lines 124, 128). -/
def task1_sheet_name : String := "Task 1 - Clients Above 25"

/-- The Task 2 target sheet name (app.py lines 310, 314). -/
def task2_sheet_name : String := "Task 2 - July Aug Renewals"

/-- `create_task1_worksheet` (app.py lines 120-213) at the sheet-lifecycle
level: discard any existing target sheet, create a fresh one, look up the
raw data sheet (`wb[raw_data_sheet]`, line 131 — after the creation, so a
raw name equal to the target resolves to the fresh sheet), and fill the
target from it.  `build` is the header/formula generation of
lines 134-212 as a function of the raw grid.  When the raw sheet is absent
the lookup raises `KeyError`; the workbook is left in its mutated state. -/
def create_task1_worksheet (wb : Sheets) (raw_data_sheet : String)
    (build : Grid → Grid) : Sheets :=
  let wb1 := removeSheet wb task1_sheet_name
  let wb2 := createSheet wb1 task1_sheet_name
  match List.lookup raw_data_sheet wb2 with
  | none => wb2
  | some rawGrid => setSheetContent wb2 task1_sheet_name (build rawGrid)

/-- `create_task1_worksheet_static` (app.py lines 225-304) at the
sheet-lifecycle level: same discard/create pattern, with `content` the
static rows computed from the DataFrame (lines 236-302), which do not
depend on the workbook. -/
def create_task1_worksheet_static (wb : Sheets) (content : Grid) : Sheets :=
  let wb1 := removeSheet wb task1_sheet_name
  let wb2 := createSheet wb1 task1_sheet_name
  setSheetContent wb2 task1_sheet_name content

/-- `create_task2_worksheet` (app.py lines 306-400) at the sheet-lifecycle
level: same discard/create pattern on the Task 2 sheet name, with `content`
the two stacked month sections computed from the DataFrame
(lines 316-398). -/
def create_task2_worksheet (wb : Sheets) (content : Grid) : Sheets :=
  let wb1 := removeSheet wb task2_sheet_name
  let wb2 := createSheet wb1 task2_sheet_name
  setSheetContent wb2 task2_sheet_name content

/-! ### Helper lemmas -/

/-- A birth date strictly after today gives a negative computed age. -/
lemma ageAt_neg_of_lt (d today : Date) (h : dateLt today d = true) :
    ageAt d today < 0 := by
  unfold dateLt at h
  unfold ageAt monthDayLt
  rw [decide_eq_true_eq] at h
  split <;> rename_i hmd <;> rw [decide_eq_true_eq] at hmd <;> omega

/-- A birth date not after today gives a non-negative computed age. -/
lemma ageAt_nonneg_of_not_lt (d today : Date) (h : dateLt today d = false) :
    0 ≤ ageAt d today := by
  unfold dateLt at h
  unfold ageAt monthDayLt
  rw [decide_eq_false_iff_not] at h
  split <;> rename_i hmd <;> simp only [decide_eq_true_eq] at hmd <;> omega

/-- Whenever the core of `calculate_age` produces an age, the age is within
the sanity bounds and the birth date is not the epoch sentinel. -/
lemma calculate_age_core_ok {d today : Date} {a : Int}
    (h : calculate_age_core d today = some a) :
    0 ≤ a ∧ a ≤ 120 ∧ d ≠ epoch1970 := by
  unfold calculate_age_core at h
  split at h
  · exact absurd h (by simp)
  · rename_i hep
    split at h
    · exact absurd h (by simp)
    · rename_i hrange
      rw [Option.some.injEq] at h
      subst h
      refine ⟨by omega, by omega, ?_⟩
      intro hd
      subst hd
      exact hep ⟨rfl, rfl, rfl⟩

/-- Counting an element after discarding the `none` entries of an optional
list is counting its `some` in the original list. -/
lemma count_filterMap_id {α : Type} [DecidableEq α] (l : List (Option α)) (e : α) :
    (l.filterMap id).count e = l.count (some e) := by
  induction l with
  | nil => rfl
  | cons hd tl ih =>
    cases hd with
    | none => simpa [List.count_cons] using ih
    | some x =>
      by_cases hx : x = e
      · subst hx
        simp [List.count_cons, ih]
      · simp [List.count_cons, ih, hx]

/-! ### Claim C1 -/

/-- C1 (counterexample): at the concrete row whose birthday is the literal
1970-01-01 (today being 2025-06-15), the synthesized condition formula keeps
the row (`DATEDIF` yields 55 > 25) while the procedural filter drops it
(`calculate_age` maps the epoch sentinel to `None`), so the two paths do not
classify every row identically. -/
theorem claim_C1_counterexample :
    formulaCond (Cell.date ⟨1970, 1, 1⟩) ⟨2025, 6, 15⟩ = true
    ∧ task1_preview_keeps (Cell.date ⟨1970, 1, 1⟩) ⟨2025, 6, 15⟩ = false := by
  constructor <;> decide

/-- C1 (amended): for every source row whose birthday cell is not a parsed
date equal to the 1970-01-01 sentinel and not one giving a computed age
above 120, the synthesized row condition (blank guard, then DATEDIF error
guard, then `DATEDIF(birthday, TODAY(), "Y") > 25`) classifies the row
exactly as the procedural filter `above_age` applied to the age computed by
`calculate_age` — in particular blank-birthday and malformed-birthday rows
are excluded by both, and so are future-dated birthdays. -/
theorem claim_C1_live_formula_matches_procedural (c : Cell) (today : Date)
    (h : sentinel_or_overage c today = false) :
    formulaCond c today = task1_preview_keeps c today := by
  cases c with
  | blank => rfl
  | malformed => rfl
  | date d =>
    simp only [sentinel_or_overage, decide_eq_false_iff_not, not_or, not_lt] at h
    obtain ⟨hne, hage⟩ := h
    have hepoch : ¬(d.year = 1970 ∧ d.month = 1 ∧ d.day = 1) := by
      rintro ⟨h1, h2, h3⟩
      apply hne
      obtain ⟨y, m, dd⟩ := d
      simp only at h1 h2 h3
      rw [h1, h2, h3]
      rfl
    have hform : formulaCond (Cell.date d) today
        = (if dateLt today d = true then false else decide (ageAt d today > 25)) := by
      by_cases hlt : dateLt today d = true
      · simp [formulaCond, excelISBLANK, excelISERROR, excelDATEDIF_Y, hlt]
      · rw [Bool.not_eq_true] at hlt
        simp [formulaCond, excelISBLANK, excelISERROR, excelDATEDIF_Y, hlt]
    have hprev : task1_preview_keeps (Cell.date d) today
        = (if ageAt d today < 0 ∨ ageAt d today > 120 then false
           else decide (ageAt d today > 25)) := by
      simp only [task1_preview_keeps, preview_age, cellToPy, to_datetime_coerce,
        calculate_age, calculate_age_core]
      rw [if_neg hepoch]
      by_cases hr : ageAt d today < 0 ∨ ageAt d today > 120
      · rw [if_pos hr, if_pos hr]
        rfl
      · rw [if_neg hr, if_neg hr]
        rfl
    rw [hform, hprev]
    by_cases hlt : dateLt today d = true
    · have hneg := ageAt_neg_of_lt d today hlt
      rw [if_pos hlt, if_pos (Or.inl hneg)]
    · have hge := ageAt_nonneg_of_not_lt d today (by rwa [Bool.not_eq_true] at hlt)
      rw [if_neg hlt, if_neg (by omega)]

/-- C1 (witness): the spec scenario row, birthday 1990-06-01 at
2025-06-15 — no sentinel and no over-age, so the two classifications agree,
and both keep the row (age 35 > 25). -/
theorem claim_C1_witness :
    formulaCond (Cell.date ⟨1990, 6, 1⟩) ⟨2025, 6, 15⟩
      = task1_preview_keeps (Cell.date ⟨1990, 6, 1⟩) ⟨2025, 6, 15⟩
    ∧ task1_preview_keeps (Cell.date ⟨1990, 6, 1⟩) ⟨2025, 6, 15⟩ = true :=
  ⟨claim_C1_live_formula_matches_procedural (Cell.date ⟨1990, 6, 1⟩) ⟨2025, 6, 15⟩ (by decide),
   by decide⟩

/-! ### Claim C2 -/

/-- C2 (counterexample): `calculate_age_safe`, the static-report age path,
maps the literal birth date 1970-01-01 (today 2025-06-15) to the present age
55, so on that path a present age does not imply that the underlying birth
date differs from the epoch sentinel. -/
theorem claim_C2_counterexample :
    calculate_age_safe (some epoch1970) ⟨2025, 6, 15⟩ = some 55 := by decide

/-- C2 (amended): whenever an age is present it satisfies `0 ≤ age ≤ 120`
on both age paths; on the `calculate_age` path the underlying birth date is
additionally never the literal 1970-01-01, but `calculate_age_safe`
performs no such sentinel check. -/
theorem claim_C2_age_invariant (v : PyVal) (bd : Option Date) (today : Date) (a : Int) :
    (calculate_age v today = Except.ok (some a) →
      0 ≤ a ∧ a ≤ 120 ∧ normBirth v ≠ some epoch1970)
    ∧ (calculate_age_safe bd today = some a → 0 ≤ a ∧ a ≤ 120) := by
  constructor
  · intro h
    cases v with
    | na => simp [calculate_age] at h
    | num n => simp [calculate_age] at h
    | other => simp [calculate_age] at h
    | str parsed =>
      cases parsed with
      | none => simp [calculate_age] at h
      | some d =>
        simp only [calculate_age, Except.ok.injEq] at h
        obtain ⟨h0, h1, h2⟩ := calculate_age_core_ok h
        exact ⟨h0, h1, by simpa [normBirth] using h2⟩
    | date d =>
      simp only [calculate_age, Except.ok.injEq] at h
      obtain ⟨h0, h1, h2⟩ := calculate_age_core_ok h
      exact ⟨h0, h1, by simpa [normBirth] using h2⟩
  · intro h
    cases bd with
    | none => simp [calculate_age_safe] at h
    | some d =>
      simp only [calculate_age_safe] at h
      split at h
      · rename_i hr
        rw [Option.some.injEq] at h
        omega
      · exact absurd h (by simp)

/-- C2 (witness): birth date 1990-06-01 at 2025-06-15 on the
`calculate_age` path: age 35 within bounds, birth date not the sentinel. -/
theorem claim_C2_witness :
    (0 : Int) ≤ 35 ∧ (35 : Int) ≤ 120
    ∧ normBirth (PyVal.date ⟨1990, 6, 1⟩) ≠ some epoch1970 :=
  (claim_C2_age_invariant (PyVal.date ⟨1990, 6, 1⟩) (some ⟨1990, 6, 1⟩)
    ⟨2025, 6, 15⟩ 35).1 (by rfl)

/-! ### Claim C4 -/

/-- C4 (counterexample): `calculate_age` on the plain number 5 reaches
`birth_date.year` and raises `AttributeError` — the exception escapes, so
the function is not total over every input cell value. -/
theorem claim_C4_counterexample :
    calculate_age (PyVal.num 5) ⟨2025, 6, 15⟩ = Except.error () := rfl

/-- C4 (amended): `calculate_age` returns a result (an age or `None`) and
never lets an exception escape on every blank, string or datetime input;
only a dateless non-string value (a plain number, or any other such type)
makes it raise. -/
theorem claim_C4_no_raise_on_supported_inputs (v : PyVal) (today : Date)
    (h : v = PyVal.na ∨ (∃ p, v = PyVal.str p) ∨ ∃ d, v = PyVal.date d) :
    ∃ r, calculate_age v today = Except.ok r := by
  rcases h with rfl | ⟨p, rfl⟩ | ⟨d, rfl⟩
  · exact ⟨none, rfl⟩
  · cases p with
    | none => exact ⟨none, rfl⟩
    | some d => exact ⟨calculate_age_core d today, rfl⟩
  · exact ⟨calculate_age_core d today, rfl⟩

/-- C4 (witness): a string input that parses as 1990-06-01 never raises. -/
theorem claim_C4_witness :
    ∃ r, calculate_age (PyVal.str (some ⟨1990, 6, 1⟩)) ⟨2025, 6, 15⟩ = Except.ok r :=
  claim_C4_no_raise_on_supported_inputs (PyVal.str (some ⟨1990, 6, 1⟩)) ⟨2025, 6, 15⟩
    (Or.inr (Or.inl ⟨some ⟨1990, 6, 1⟩, rfl⟩))

/-! ### Claim C5 -/

/-- C5: the filter `df[df["Age"] > t]` is order-preserving (its result is a
sublist of the record sequence), keeps only records with a present age
strictly above the threshold (so absent ages are excluded), includes every
record of age `t + 1`, and excludes every record of age exactly `t`. -/
theorem claim_C5_above_age_filter (records : List Record) (t : Int) :
    (above_age records t).Sublist records
    ∧ (∀ r ∈ above_age records t, ∃ a, r.age = some a ∧ a > t)
    ∧ (∀ r ∈ records, r.age = some (t + 1) → r ∈ above_age records t)
    ∧ (∀ r, r.age = some t → r ∉ above_age records t) := by
  refine ⟨List.filter_sublist _, ?_, ?_, ?_⟩
  · intro r hr
    have hkeep := (List.mem_filter.mp hr).2
    cases ha : r.age with
    | none => rw [ha] at hkeep; simp [age_keep] at hkeep
    | some a =>
      rw [ha] at hkeep
      simp only [age_keep, decide_eq_true_eq] at hkeep
      exact ⟨a, rfl, hkeep⟩
  · intro r hr hage
    refine List.mem_filter.mpr ⟨hr, ?_⟩
    simp only [age_keep, hage, decide_eq_true_eq]
    omega
  · intro r hage hr
    have hkeep := (List.mem_filter.mp hr).2
    rw [hage] at hkeep
    simp only [age_keep, decide_eq_true_eq] at hkeep
    omega

/-- C5 (witness): with threshold 25, the record of age 26 is kept, the
record of age exactly 25 is dropped, and the absent-age record is dropped,
in source order. -/
theorem claim_C5_witness :
    (⟨0, some 26⟩ : Record) ∈ above_age [⟨0, some 26⟩, ⟨1, none⟩, ⟨2, some 25⟩] 25
    ∧ (⟨2, some 25⟩ : Record) ∉ above_age [⟨0, some 26⟩, ⟨1, none⟩, ⟨2, some 25⟩] 25
    ∧ above_age [⟨0, some 26⟩, ⟨1, none⟩, ⟨2, some 25⟩] 25 = [⟨0, some 26⟩] :=
  ⟨(claim_C5_above_age_filter [⟨0, some 26⟩, ⟨1, none⟩, ⟨2, some 25⟩] 25).2.2.1
      ⟨0, some 26⟩ (by decide) (by norm_num),
   (claim_C5_above_age_filter [⟨0, some 26⟩, ⟨1, none⟩, ⟨2, some 25⟩] 25).2.2.2
      ⟨2, some 25⟩ rfl,
   by decide⟩

/-! ### Claim C6 -/

/-- C6: the two renewal buckets are the rows whose coerced date satisfies
the July resp. August 2025 mask; on well-formed dates the July mask is
exactly inclusive membership in [2025-07-01, 2025-07-31]; the window's
first and last days are in, one day outside either bound is out, and an
unparseable renewal date (NaT) is in neither bucket. -/
theorem claim_C6_window_membership (rows : List RenRow) (r : RenRow) (d : Date) :
    (r ∈ (create_task2_buckets rows).1 ↔ r ∈ rows ∧ in_july_2025 r.renewal = true)
    ∧ (r ∈ (create_task2_buckets rows).2 ↔ r ∈ rows ∧ in_august_2025 r.renewal = true)
    ∧ (ValidDate d →
        (in_july_2025 (some d) = true
          ↔ dateLe ⟨2025, 7, 1⟩ d = true ∧ dateLe d ⟨2025, 7, 31⟩ = true))
    ∧ in_july_2025 (some ⟨2025, 7, 1⟩) = true
    ∧ in_july_2025 (some ⟨2025, 7, 31⟩) = true
    ∧ in_july_2025 (some ⟨2025, 6, 30⟩) = false
    ∧ in_july_2025 (some ⟨2025, 8, 1⟩) = false
    ∧ in_july_2025 none = false
    ∧ in_august_2025 none = false := by
  refine ⟨List.mem_filter, List.mem_filter, ?_, by decide, by decide, by decide,
    by decide, rfl, rfl⟩
  intro hv
  unfold ValidDate at hv
  obtain ⟨hm1, hm2, hd1, hd2⟩ := hv
  simp only [in_july_2025, dateLe, decide_eq_true_eq]
  constructor
  · rintro ⟨hy, hm⟩
    rw [hy, hm] at hd2
    have h31 : daysInMonth 2025 7 = 31 := by decide
    rw [h31] at hd2
    omega
  · intro hb
    constructor <;> omega

/-- C6 (witness): 2025-07-15 is a valid date inside the July window, and
the theorem's characterization places it between the inclusive bounds. -/
theorem claim_C6_witness :
    dateLe ⟨2025, 7, 1⟩ ⟨2025, 7, 15⟩ = true
    ∧ dateLe ⟨2025, 7, 15⟩ ⟨2025, 7, 31⟩ = true :=
  ((claim_C6_window_membership [] ⟨0, none⟩ ⟨2025, 7, 15⟩).2.2.1
    (by unfold ValidDate; decide)).mp (by decide)

/-! ### Claim C3 -/

/-- C3 (counterexample): an email appearing in a July-bucket row and again
in an August-bucket row appears twice in the program's two window email
lists taken together — the combined sequence is not de-duplicated. -/
theorem claim_C3_counterexample :
    combined_emails [some "x"] [some "x"] = ["x", "x"]
    ∧ (combined_emails [some "x"] [some "x"]).count "x" = 2 := by
  constructor <;> rfl

/-- C3 (amended): the window email lists are the bucket email columns with
blanks dropped, in row order, July rows first; every occurrence is kept, so
an email appears once per bucketed row that carries it (no
de-duplication). -/
theorem claim_C3_email_concatenation (julyCol augustCol : List (Option String)) (e : String) :
    combined_emails julyCol augustCol = extract_emails julyCol ++ extract_emails augustCol
    ∧ (combined_emails julyCol augustCol).count e
        = julyCol.count (some e) + augustCol.count (some e) := by
  refine ⟨rfl, ?_⟩
  unfold combined_emails extract_emails
  rw [List.count_append, count_filterMap_id, count_filterMap_id]

/-! ### Claim C8 -/

/-- C8 (counterexample): a run that raises while building the Task 1 sheet
has created the temporary workbook file but never deletes it — the
`os.unlink` at the end of `create_enhanced_excel_with_both_tasks` is not
reached on that exit path. -/
theorem claim_C8_counterexample :
    (create_enhanced_excel_with_both_tasks (fun s => s == Step.task1)).tmp_created = true
    ∧ (create_enhanced_excel_with_both_tasks (fun s => s == Step.task1)).tmp_deleted = false
    ∧ (create_enhanced_excel_with_both_tasks (fun s => s == Step.task1)).raised = true := by
  refine ⟨rfl, rfl, rfl⟩

/-- C8 (amended): the temporary file is deleted exactly on the successful
exit path: a run with no fault creates and deletes it, and any run that
deleted it is a run in which no exception escaped. -/
theorem claim_C8_cleanup_on_success_only (fails : Step → Bool) :
    ((create_enhanced_excel_with_both_tasks fails).raised = false →
      (create_enhanced_excel_with_both_tasks fails).tmp_created = true
      ∧ (create_enhanced_excel_with_both_tasks fails).tmp_deleted = true)
    ∧ ((create_enhanced_excel_with_both_tasks fails).tmp_deleted = true →
      (create_enhanced_excel_with_both_tasks fails).raised = false) := by
  unfold create_enhanced_excel_with_both_tasks
  repeat' split
  all_goals simp

/-- C8 (witness): the fault-free run creates and then deletes the file. -/
theorem claim_C8_witness :
    (create_enhanced_excel_with_both_tasks (fun _ => false)).tmp_created = true
    ∧ (create_enhanced_excel_with_both_tasks (fun _ => false)).tmp_deleted = true :=
  (claim_C8_cleanup_on_success_only (fun _ => false)).1 rfl

/-! ### Claims C7 and C10 -/

/-- A column accepted by the per-column decision contributes its name to
`find_date_columns`. -/
lemma mem_find_date_columns {cols : List Column} {c : Column}
    (hc : c ∈ cols) (ha : date_col_accepted c = true) :
    c.name ∈ find_date_columns cols := by
  induction cols with
  | nil => cases hc
  | cons hd tl ih =>
    rcases List.mem_cons.mp hc with rfl | htl
    · unfold find_date_columns
      rw [if_pos ha]
      exact List.mem_cons_self _ _
    · unfold find_date_columns
      split
      · exact List.mem_cons_of_mem _ (ih htl)
      · exact ih htl

/-- A list of all-`none` options has an empty `filterMap id`. -/
lemma filterMap_id_eq_nil {α : Type} {l : List (Option α)}
    (h : l.all Option.isNone = true) : l.filterMap id = [] := by
  induction l with
  | nil => rfl
  | cons hd tl ih =>
    rw [List.all_cons, Bool.and_eq_true] at h
    cases hd with
    | none => simpa using ih h.2
    | some x => simp at h

/-- C7: for a column whose lowercased name contains a date keyword and
whose ten-value sample is non-empty but fails the batch date parse, the
classifier's decision is exactly whether the name contains `birthday`,
`dob` or `birth` — excluded on a parse error unless birth-named, in which
case its name still lands in the returned date candidates. -/
theorem claim_C7_failed_parse_policy (cols : List Column) (c : Column)
    (hmem : c ∈ cols)
    (hkw : hasAnyKeyword (lowerChars c.name) dateKeywords = true)
    (hs : (sample10 c).length > 0)
    (hfail : batch_parse_ok (isBirthNamed (lowerChars c.name)) (sample10 c) = false) :
    date_col_accepted c = isBirthNamed (lowerChars c.name)
    ∧ (isBirthNamed (lowerChars c.name) = true → c.name ∈ find_date_columns cols) := by
  have hacc : date_col_accepted c = isBirthNamed (lowerChars c.name) := by
    unfold date_col_accepted
    rw [if_pos hkw, if_pos hs, if_neg (by simp [hfail])]
  exact ⟨hacc, fun hb => mem_find_date_columns hmem (hacc.trans hb)⟩

/-- C7 (witness): a column literally named `birthday` whose one sampled
value parses under neither mode is kept anyway. -/
theorem claim_C7_witness :
    ['b','i','r','t','h','d','a','y'] ∈ find_date_columns
      [⟨['b','i','r','t','h','d','a','y'], [some ⟨false, false⟩]⟩] :=
  (claim_C7_failed_parse_policy
      [⟨['b','i','r','t','h','d','a','y'], [some ⟨false, false⟩]⟩]
      ⟨['b','i','r','t','h','d','a','y'], [some ⟨false, false⟩]⟩
      (by decide) (by decide) (by decide) (by decide)).2 (by decide)

/-- C10: a column whose cells are all blank (so there are no non-blank
values to sample) is never accepted as a date candidate — the birth-name
override lives in the exception branch, which an empty sample does not
reach — regardless of what the name contains. -/
theorem claim_C10_blank_column (c : Column)
    (h : c.cells.all Option.isNone = true) :
    date_col_accepted c = false ∧ find_date_columns [c] = [] := by
  have hs : sample10 c = [] := by
    unfold sample10
    rw [filterMap_id_eq_nil h]
    rfl
  have hacc : date_col_accepted c = false := by
    simp [date_col_accepted, hs]
  refine ⟨hacc, ?_⟩
  unfold find_date_columns
  rw [if_neg (by simp [hacc])]
  rfl

/-- C10 (witness): an all-blank column named `birthday` yields no date
candidate. -/
theorem claim_C10_witness :
    date_col_accepted ⟨['b','i','r','t','h','d','a','y'], [none, none]⟩ = false
    ∧ find_date_columns [⟨['b','i','r','t','h','d','a','y'], [none, none]⟩] = [] :=
  claim_C10_blank_column ⟨['b','i','r','t','h','d','a','y'], [none, none]⟩ (by decide)

/-! ### Claim C9 -/

/-- No sheet surviving `removeSheet wb name` is named `name`. -/
lemma removeSheet_not_mem (wb : Sheets) (name : String) :
    ∀ s ∈ removeSheet wb name, (s.1 == name) = false := by
  intro s hs
  have hp := (List.mem_filter.mp hs).2
  simpa using hp

/-- `removeSheet` distributes over append. -/
lemma removeSheet_append (A B : Sheets) (name : String) :
    removeSheet (A ++ B) name = removeSheet A name ++ removeSheet B name := by
  simp [removeSheet]

/-- Removing a sheet name twice is removing it once. -/
lemma removeSheet_removeSheet (wb : Sheets) (name : String) :
    removeSheet (removeSheet wb name) name = removeSheet wb name :=
  List.filter_eq_self.mpr (fun _ ha => (List.mem_filter.mp ha).2)

/-- Removing a name from the single sheet carrying it empties the list. -/
lemma removeSheet_singleton (name : String) (g : Grid) :
    removeSheet [(name, g)] name = [] := by
  simp [removeSheet]

/-- Writing the freshly appended sheet rewrites only it. -/
lemma setSheetContent_fresh (A : Sheets) (name : String) (gOld g : Grid)
    (h : ∀ s ∈ A, (s.1 == name) = false) :
    setSheetContent (A ++ [(name, gOld)]) name g = A ++ [(name, g)] := by
  unfold setSheetContent
  rw [List.map_append]
  congr 1
  · conv_rhs => rw [← List.map_id A]
    apply List.map_congr_left
    intro s hs
    rw [if_neg (by simp [h s hs])]
    rfl
  · simp

/-- Normal form of `create_task1_worksheet`: the other sheets unchanged,
one target sheet at the end whose grid is built from the raw sheet looked
up after the fresh target was created. -/
lemma create_task1_worksheet_eq (wb : Sheets) (raw : String) (build : Grid → Grid) :
    create_task1_worksheet wb raw build
      = removeSheet wb task1_sheet_name
        ++ [(task1_sheet_name,
             match List.lookup raw (removeSheet wb task1_sheet_name
                 ++ [(task1_sheet_name, ([] : Grid))]) with
             | none => ([] : Grid)
             | some g => build g)] := by
  unfold create_task1_worksheet createSheet
  cases hl : List.lookup raw (removeSheet wb task1_sheet_name
      ++ [(task1_sheet_name, ([] : Grid))]) with
  | none => simp [hl]
  | some g =>
    simp only [hl]
    exact setSheetContent_fresh _ _ _ _ (removeSheet_not_mem wb task1_sheet_name)

/-- Normal form of `create_task1_worksheet_static`. -/
lemma create_task1_worksheet_static_eq (wb : Sheets) (content : Grid) :
    create_task1_worksheet_static wb content
      = removeSheet wb task1_sheet_name ++ [(task1_sheet_name, content)] := by
  unfold create_task1_worksheet_static createSheet
  exact setSheetContent_fresh _ _ _ _ (removeSheet_not_mem wb task1_sheet_name)

/-- Normal form of `create_task2_worksheet`. -/
lemma create_task2_worksheet_eq (wb : Sheets) (content : Grid) :
    create_task2_worksheet wb content
      = removeSheet wb task2_sheet_name ++ [(task2_sheet_name, content)] := by
  unfold create_task2_worksheet createSheet
  exact setSheetContent_fresh _ _ _ _ (removeSheet_not_mem wb task2_sheet_name)

/-- A sheet list made of non-target sheets plus one target sheet holds the
target name exactly once. -/
lemma countP_target (A : Sheets) (name : String) (g : Grid)
    (h : ∀ s ∈ A, (s.1 == name) = false) :
    List.countP (fun s => s.1 == name) (A ++ [(name, g)]) = 1 := by
  rw [List.countP_append]
  have h0 : List.countP (fun s => s.1 == name) A = 0 :=
    List.countP_eq_zero.mpr (fun a ha => by simp [h a ha])
  simp [h0, List.countP_cons]

/-- Removing the target from any of the three normal forms recovers the
input's non-target sheets. -/
lemma removeSheet_normal_form (A : Sheets) (name : String) (g : Grid)
    (h : ∀ s ∈ A, (s.1 == name) = false) :
    removeSheet (A ++ [(name, g)]) name = A := by
  rw [removeSheet_append, removeSheet_singleton, List.append_nil]
  exact List.filter_eq_self.mpr (fun a ha => by simp [h a ha])

/-- C9: each report-sheet creation (Task 1 live, Task 1 static, Task 2)
leaves exactly one sheet with the target name, is idempotent (a second run
reproduces the first run's workbook exactly), and rebuilds the target
entirely — the result depends only on the non-target sheets, never on any
pre-existing sheet of the target name. -/
theorem claim_C9_sheet_rebuild (wb wbAlt : Sheets) (raw : String)
    (build : Grid → Grid) (content : Grid) :
    (List.countP (fun s => s.1 == task1_sheet_name)
        (create_task1_worksheet wb raw build) = 1
      ∧ create_task1_worksheet (create_task1_worksheet wb raw build) raw build
          = create_task1_worksheet wb raw build
      ∧ (removeSheet wb task1_sheet_name = removeSheet wbAlt task1_sheet_name →
          create_task1_worksheet wb raw build = create_task1_worksheet wbAlt raw build))
    ∧ (List.countP (fun s => s.1 == task1_sheet_name)
        (create_task1_worksheet_static wb content) = 1
      ∧ create_task1_worksheet_static (create_task1_worksheet_static wb content) content
          = create_task1_worksheet_static wb content
      ∧ (removeSheet wb task1_sheet_name = removeSheet wbAlt task1_sheet_name →
          create_task1_worksheet_static wb content
            = create_task1_worksheet_static wbAlt content))
    ∧ (List.countP (fun s => s.1 == task2_sheet_name)
        (create_task2_worksheet wb content) = 1
      ∧ create_task2_worksheet (create_task2_worksheet wb content) content
          = create_task2_worksheet wb content
      ∧ (removeSheet wb task2_sheet_name = removeSheet wbAlt task2_sheet_name →
          create_task2_worksheet wb content = create_task2_worksheet wbAlt content)) := by
  refine ⟨⟨?_, ?_, ?_⟩, ⟨?_, ?_, ?_⟩, ⟨?_, ?_, ?_⟩⟩
  · rw [create_task1_worksheet_eq]
    exact countP_target _ _ _ (removeSheet_not_mem wb task1_sheet_name)
  · have hrm : removeSheet (create_task1_worksheet wb raw build) task1_sheet_name
        = removeSheet wb task1_sheet_name := by
      rw [create_task1_worksheet_eq]
      exact removeSheet_normal_form _ _ _ (removeSheet_not_mem wb task1_sheet_name)
    rw [create_task1_worksheet_eq (create_task1_worksheet wb raw build) raw build, hrm,
      ← create_task1_worksheet_eq wb raw build]
  · intro h
    rw [create_task1_worksheet_eq, create_task1_worksheet_eq, h]
  · rw [create_task1_worksheet_static_eq]
    exact countP_target _ _ _ (removeSheet_not_mem wb task1_sheet_name)
  · have hrm : removeSheet (create_task1_worksheet_static wb content) task1_sheet_name
        = removeSheet wb task1_sheet_name := by
      rw [create_task1_worksheet_static_eq]
      exact removeSheet_normal_form _ _ _ (removeSheet_not_mem wb task1_sheet_name)
    rw [create_task1_worksheet_static_eq (create_task1_worksheet_static wb content) content,
      hrm, ← create_task1_worksheet_static_eq wb content]
  · intro h
    rw [create_task1_worksheet_static_eq, create_task1_worksheet_static_eq, h]
  · rw [create_task2_worksheet_eq]
    exact countP_target _ _ _ (removeSheet_not_mem wb task2_sheet_name)
  · have hrm : removeSheet (create_task2_worksheet wb content) task2_sheet_name
        = removeSheet wb task2_sheet_name := by
      rw [create_task2_worksheet_eq]
      exact removeSheet_normal_form _ _ _ (removeSheet_not_mem wb task2_sheet_name)
    rw [create_task2_worksheet_eq (create_task2_worksheet wb content) content, hrm,
      ← create_task2_worksheet_eq wb content]
  · intro h
    rw [create_task2_worksheet_eq, create_task2_worksheet_eq, h]

/-- C9 (witness): a workbook carrying a stale target sheet and the same
workbook without it produce the identical rebuilt workbook. -/
theorem claim_C9_witness :
    create_task1_worksheet [("Raw", [["a"]]), (task1_sheet_name, [["old"]])] "Raw" id
      = create_task1_worksheet [("Raw", [["a"]])] "Raw" id :=
  (claim_C9_sheet_rebuild [("Raw", [["a"]]), (task1_sheet_name, [["old"]])]
    [("Raw", [["a"]])] "Raw" id [["a"]]).1.2.2 (by decide)

end ExcelAutomation
